import Mathlib

/-!
Verification development for the web-search / content-extraction adapter
in src/lib/ai/tools/web/web-search.ts. The adapter translates a legacy
(Exa-shaped) tool interface onto the Tavily search API.

The embedding models JavaScript values explicitly:
- optional object fields / possibly-undefined values become Option;
- JavaScript truthiness on strings (empty string is falsy) is strTruthy;
- the or-default idiom on numbers (0 is falsy) is natOr;
- String.prototype.substring(0, n) is jsSubstring;
- String.prototype.includes is jsIncludes;
- the fetch Response is HttpResponse, with bodyText an Except so that a
  failing response.text() read can be modelled; response.ok is derived
  from the status as in the Fetch standard.
The network is a parameter (a function from the outbound request to the
response), so theorems quantify over every possible backing behaviour,
and fetchTavily returns the list of outbound requests it issued so that
call-count properties are expressible.
-/

namespace WebSearch

/-- Numeric JSON values (relevance scores, response times). The adapter
only copies them through, so any ordered field with decidable equality
is an adequate model. -/
abbrev JsNumber := Rat

/-- JavaScript truthiness of a possibly-undefined string: undefined and
the empty string are falsy. -/
def strTruthy : Option String → Bool
  | none => false
  | some s => !(s == "")

/-- The JavaScript idiom x or-else d on a possibly-undefined number,
where 0 is falsy and selects the default. -/
def natOr (o : Option Nat) (d : Nat) : Nat :=
  match o with
  | some n => if n == 0 then d else n
  | none => d

/-- String.prototype.substring(0, n): the first n characters. -/
def jsSubstring (s : String) (n : Nat) : String :=
  (s.toList.take n).asString

/-- Whether the first list starts with the second. -/
def startsWithL : List Char → List Char → Bool
  | _, [] => true
  | [], _ :: _ => false
  | a :: as, b :: bs => (a == b) && startsWithL as bs

/-- Whether the pattern (first argument) occurs contiguously in the
second list. -/
def occursIn : List Char → List Char → Bool
  | pat, [] => pat.isEmpty
  | pat, c :: rest => startsWithL (c :: rest) pat || occursIn pat rest

/-- String.prototype.includes: does s contain pat as a substring. -/
def jsIncludes (s pat : String) : Bool :=
  occursIn pat.toList s.toList

/-- The TavilySearchRequest interface (web-search.ts lines 7-25). Every
field except query is optional; a field that is none is absent from the
serialized JSON payload. -/
structure TavilySearchRequest where
  query : String
  search_depth : Option String := none
  topic : Option String := none
  max_results : Option Nat := none
  include_answer : Option Bool := none
  include_images : Option Bool := none
  include_image_descriptions : Option Bool := none
  include_raw_content : Option Bool := none
  include_domains : Option (List String) := none
  exclude_domains : Option (List String) := none
  time_range : Option String := none
  country : Option String := none
  start_date : Option String := none
  end_date : Option String := none
  max_tokens : Option Nat := none
  chunks_per_source : Option Nat := none
  include_favicon : Option Bool := none
deriving DecidableEq

/-- The TavilySearchResult interface (lines 27-35). -/
structure TavilySearchResult where
  title : String
  url : String
  content : String
  score : JsNumber
  published_date : Option String := none
  raw_content : Option String := none
  favicon : Option String := none
deriving DecidableEq

/-- One entry of the images array of a Tavily response, which the
interface declares as TavilyImageResult[] or string[] (line 46): either
a bare URL string or an object with a url and optional description. -/
inductive TavilyImageEntry where
  | str (s : String)
  | obj (url : String) (description : Option String)
deriving DecidableEq

/-- The TavilySearchResponse interface (lines 42-49). -/
structure TavilySearchResponse where
  query : String
  results : List TavilySearchResult
  answer : Option String := none
  images : Option (List TavilyImageEntry) := none
  response_time : JsNumber
  request_id : String
deriving DecidableEq

/-- The legacy ExaSearchResult interface (lines 52-62), the shape
expected by existing UI consumers. -/
structure ExaSearchResult where
  id : String
  title : String
  url : String
  publishedDate : String
  author : String
  text : String
  image : Option String := none
  favicon : Option String := none
  score : Option JsNumber := none
deriving DecidableEq

/-- The legacy ExaSearchResponse interface (lines 64-69). -/
structure ExaSearchResponse where
  requestId : String
  autopromptString : String
  resolvedSearchType : String
  results : List ExaSearchResult
deriving DecidableEq

/-- The validated input of the search tools, per exaSearchSchema
(lines 71-140). Optional fields are none when absent. -/
structure SearchParams where
  query : String
  numResults : Option Nat := none
  type : Option String := none
  category : Option String := none
  includeDomains : Option (List String) := none
  excludeDomains : Option (List String) := none
  startPublishedDate : Option String := none
  endPublishedDate : Option String := none
  maxCharacters : Option Nat := none
deriving DecidableEq

/-- The validated input of the contents tools, per exaContentsSchema
(lines 142-166). -/
structure ContentsParams where
  urls : List String
  maxCharacters : Option Nat := none
  livecrawl : Option String := none
deriving DecidableEq

/-- BASE_URL constant (line 169). -/
def BASE_URL : String := "https://api.tavily.com"

/-- One outbound HTTP request issued by fetchTavily: its URL, the value
of its api-key header, and its JSON body. -/
structure OutboundRequest where
  url : String
  apiKeyHeader : String
  body : TavilySearchRequest
deriving DecidableEq

instance {ε α : Type} [DecidableEq ε] [DecidableEq α] : DecidableEq (Except ε α) := fun a b =>
  match a, b with
  | Except.error x, Except.error y => decidable_of_iff (x = y) (by simp)
  | Except.error _, Except.ok _ => isFalse (by simp)
  | Except.ok _, Except.error _ => isFalse (by simp)
  | Except.ok x, Except.ok y => decidable_of_iff (x = y) (by simp)

/-- A fetch Response as consumed by fetchTavily: status, statusText,
the result of response.text() (which can itself fail), and the parsed
JSON body of a successful response. -/
structure HttpResponse (α : Type) where
  status : Nat
  statusText : String
  bodyText : Except Unit String
  json : α
deriving DecidableEq

/-- response.ok per the Fetch standard: status in the range 200-299. -/
def HttpResponse.ok (r : HttpResponse α) : Bool :=
  decide (200 ≤ r.status) && decide (r.status < 300)

/-- Line 168: const API_KEY = process.env.TAVILY_API_KEY. The module
reads the environment variable once, when the module is loaded. -/
def moduleApiKey (envAtModuleLoad : String → Option String) : Option String :=
  envAtModuleLoad "TAVILY_API_KEY"

/-- The API key a fetchTavily call uses, as a function of the process
environment at module load time and at call time. fetchTavily closes
over the module-level constant API_KEY (line 168), so the environment
at call time does not enter the result. -/
def fetchTavilyKeyUsed (envAtModuleLoad envAtCallTime : String → Option String) :
    Option String :=
  moduleApiKey envAtModuleLoad

/-- The request fetchTavily sends: BASE_URL ++ endpoint, the api-key
header, and the JSON body (lines 176-183). -/
def outboundRequest (k : String) (endpoint : String) (body : TavilySearchRequest) :
    OutboundRequest :=
  { url := BASE_URL ++ endpoint, apiKeyHeader := k, body := body }

/-- fetchTavily (lines 171-200). The network is modelled by net; the
second component of the result lists the outbound requests issued (empty
exactly when no network call was attempted). Thrown errors become
Except.error carrying the message. -/
def fetchTavily (net : OutboundRequest → HttpResponse α) (apiKey : Option String)
    (endpoint : String) (body : TavilySearchRequest) :
    Except String α × List OutboundRequest :=
  if strTruthy apiKey = false then
    (Except.error "TAVILY_API_KEY is not configured", [])
  else
    let req := outboundRequest (apiKey.getD "") endpoint body
    let response := net req
    if response.status == 401 then
      (Except.error "Invalid Tavily API key", [req])
    else if response.status == 429 then
      (Except.error "Tavily API usage limit exceeded", [req])
    else if response.ok = false then
      let errorText := match response.bodyText with
        | Except.ok t => t
        | Except.error _ => ""
      (Except.error ("Tavily API error: " ++ Nat.repr response.status ++ " "
        ++ response.statusText
        ++ (if errorText == "" then "" else " - " ++ errorText)), [req])
    else
      (Except.ok response.json, [req])

/-- Normalization of the type parameter (lines 243-246): keep it only
when it is truthy and one of the three enum values, else "auto". -/
def normalizedType (t : Option String) : String :=
  match t with
  | none => "auto"
  | some s =>
    if (!(s == "")) && (s == "auto" || s == "keyword" || s == "neural") then s
    else "auto"

/-- The search request translator (lines 242-279 of
exaSearchToolForWorkflow; duplicated verbatim at lines 353-390 of
exaSearchTool). The base object literal is built first, then each
optional field is added by a guarded assignment, in source order. -/
def buildSearchRequest (p : SearchParams) : TavilySearchRequest :=
  let nt := normalizedType p.type
  let base : TavilySearchRequest :=
    { query := p.query
      search_depth :=
        some (if nt == "neural" then "advanced"
              else if nt == "keyword" then "basic" else "basic")
      max_results := some (natOr p.numResults 5)
      include_answer := some false
      include_images := some true
      include_image_descriptions := some false
      include_raw_content := some false
      include_favicon := some true }
  let r1 := if p.category == some "news" then { base with topic := some "news" } else base
  let r2 := match p.includeDomains with
    | some l => if l.length > 0 then { r1 with include_domains := some l } else r1
    | none => r1
  let r3 := match p.excludeDomains with
    | some l => if l.length > 0 then { r2 with exclude_domains := some l } else r2
    | none => r2
  let r4 := if strTruthy p.startPublishedDate then
      { r3 with start_date := p.startPublishedDate } else r3
  let r5 := if strTruthy p.endPublishedDate then
      { r4 with end_date := p.endPublishedDate } else r4
  r5

/-- Image resolution inside transformTavilyToExaFormat (lines 211-220):
guard on a truthy non-empty images array, index it at the result
position, use a string entry directly, use an object entry through the
optional-chained truthy check imageItem?.url (so an empty url gives no
image), and anything else (including an out-of-bounds index) gives no
image. -/
def resolveImage (images : Option (List TavilyImageEntry)) (i : Nat) : Option String :=
  match images with
  | none => none
  | some imgs =>
    if imgs.length > 0 then
      match imgs.get? i with
      | some (TavilyImageEntry.str s) => some s
      | some (TavilyImageEntry.obj u _) => if u == "" then none else some u
      | none => none
    else none

/-- Image resolution following the words of the specification: a string
entry is used directly, an object entry contributes its url field, and
in every other case the image is unset. Written for comparison with
resolveImage, which is translated from the code. -/
def specImageResolve (images : Option (List TavilyImageEntry)) (i : Nat) : Option String :=
  match (images.getD []).get? i with
  | some (TavilyImageEntry.str s) => some s
  | some (TavilyImageEntry.obj u _) => some u
  | none => none

/-- One translated result of transformTavilyToExaFormat (lines 222-232),
at position i of the results list. -/
def transformResultEntry (images : Option (List TavilyImageEntry)) (i : Nat)
    (r : TavilySearchResult) : ExaSearchResult :=
  { id := r.url
    title := r.title
    url := r.url
    publishedDate := r.published_date.getD ""
    author := ""
    text := r.content
    image := resolveImage images i
    favicon := r.favicon
    score := some r.score }

/-- The indexed map over the results list (results.map with index,
line 210). -/
def transformResultsAux (images : Option (List TavilyImageEntry)) :
    List TavilySearchResult → Nat → List ExaSearchResult
  | [], _ => []
  | r :: rest, i => transformResultEntry images i r :: transformResultsAux images rest (i + 1)

/-- transformTavilyToExaFormat (lines 203-235). -/
def transformTavilyToExaFormat (t : TavilySearchResponse) : ExaSearchResponse :=
  { requestId := t.request_id
    autopromptString := t.answer.getD ""
    resolvedSearchType := "neural"
    results := transformResultsAux t.images t.results 0 }

/-- The hostname and pathname of a parsed URL, as produced by the
WHATWG URL constructor (a platform builtin, external to this code). -/
structure UrlObj where
  hostname : String
  pathname : String
deriving DecidableEq

/-- The per-URL backing request of contents extraction (lines 300-307):
search for the URL itself, advanced depth, one result, scoped to the
own domain of the URL, with raw content and favicon. -/
def contentsSearchRequest (url : String) (domain : String) : TavilySearchRequest :=
  { query := url
    search_depth := some "advanced"
    max_results := some 1
    include_domains := some [domain]
    include_raw_content := some true
    include_favicon := some true }

/-- The text field of a contents entry (lines 324-328):
raw_content?.substring(0, maxCharacters or-else 3000) or-else content.
An absent raw_content, and equally an empty truncation (raw_content
being the empty string), falls through to the content snippet. -/
def contentsText (rawContent : Option String) (content : String)
    (maxCharacters : Option Nat) : String :=
  match rawContent with
  | none => content
  | some rc =>
    let truncated := jsSubstring rc (natOr maxCharacters 3000)
    if truncated == "" then content else truncated

/-- The lookup of one URL in contents extraction (lines 295-337): parse the
URL (a throwing constructor, modelled by parseUrl returning none on
failure), issue the domain-scoped backing call (call models fetchTavily
on the built request, Except.error modelling a throw), and on a
non-empty results list build the legacy entry from the best-matching
result. Every failure is caught by the surrounding try/catch and yields
none. -/
def perUrlContents (parseUrl : String → Option UrlObj)
    (call : TavilySearchRequest → Except String TavilySearchResponse)
    (maxCharacters : Option Nat) (url : String) : Option ExaSearchResult :=
  match parseUrl url with
  | none => none
  | some urlObj =>
    match call (contentsSearchRequest url urlObj.hostname) with
    | Except.error _ => none
    | Except.ok resp =>
      match resp.results with
      | [] => none
      | r0 :: rest =>
        let matching := ((r0 :: rest).find? (fun r => jsIncludes r.url urlObj.pathname)).getD r0
        some { id := url
               title := matching.title
               url := matching.url
               publishedDate := matching.published_date.getD ""
               author := ""
               text := contentsText matching.raw_content matching.content maxCharacters
               favicon := matching.favicon
               score := some matching.score }

/-- The body of both contents tools (lines 294-343 and 420-469): map
every URL through its independent lookup and filter out the null
entries. -/
def exaContentsExecute (parseUrl : String → Option UrlObj)
    (call : TavilySearchRequest → Except String TavilySearchResponse)
    (p : ContentsParams) : List ExaSearchResult :=
  (p.urls.map (perUrlContents parseUrl call p.maxCharacters)).filterMap id

/-- The structured failure payload of the interactive tools
(lines 401-407 and 472-478). -/
structure ErrorPayload where
  isError : Bool
  error : String
  solution : String
deriving DecidableEq

/-- The fixed solution string of the interactive search tool
(lines 404-405). -/
def searchErrorSolution : String :=
  "A web search error occurred. First, explain to the user what caused this specific error and how they can resolve it. Then provide helpful information based on your existing knowledge to answer their question."

/-- The fixed solution string of the interactive contents tool
(lines 475-476). -/
def contentsErrorSolution : String :=
  "A web content extraction error occurred. First, explain to the user what caused this specific error and how they can resolve it. Then provide helpful information based on your existing knowledge to answer their question."

/-- The fixed guide string appended to a successful interactive search
(line 397). -/
def searchGuide : String :=
  "Use the search results to answer the user\x27s question. Summarize the content and ask if they have any additional questions about the topic."

/-- The result of the interactive search tool: either the translated
response together with the appended guide string, or the error
payload. -/
inductive SearchToolOutcome where
  | ok (response : ExaSearchResponse) (guide : String)
  | fail (payload : ErrorPayload)
deriving DecidableEq

/-- The result of the interactive contents tool. -/
inductive ContentsToolOutcome where
  | ok (results : List ExaSearchResult)
  | fail (payload : ErrorPayload)
deriving DecidableEq

/-- exaSearchToolForWorkflow.execute (lines 241-283): translate the
input, call the backing API, translate the response; any failure
propagates to the caller. -/
def exaSearchToolForWorkflowRun (net : OutboundRequest → HttpResponse TavilySearchResponse)
    (apiKey : Option String) (p : SearchParams) : Except String ExaSearchResponse :=
  match (fetchTavily net apiKey "/search" (buildSearchRequest p)).1 with
  | Except.error e => Except.error e
  | Except.ok resp => Except.ok (transformTavilyToExaFormat resp)

/-- exaSearchTool.execute (lines 351-409): the same pipeline inside a
safe block; a failure is converted by ifFail into the error payload
carrying the failure message and the fixed solution string, and a
success carries the fixed guide string. -/
def exaSearchToolRun (net : OutboundRequest → HttpResponse TavilySearchResponse)
    (apiKey : Option String) (p : SearchParams) : SearchToolOutcome :=
  match (fetchTavily net apiKey "/search" (buildSearchRequest p)).1 with
  | Except.error e =>
    SearchToolOutcome.fail { isError := true, error := e, solution := searchErrorSolution }
  | Except.ok resp =>
    SearchToolOutcome.ok (transformTavilyToExaFormat resp) searchGuide

/-- exaContentsTool.execute (lines 416-480): the same per-URL mapping
inside a safe block. Every per-URL failure is already caught inside the
map, so the body of the safe block cannot throw and the ifFail branch
(which would produce the payload with contentsErrorSolution) is
unreachable: the run always returns the filtered list. -/
def exaContentsToolRun (parseUrl : String → Option UrlObj)
    (call : TavilySearchRequest → Except String TavilySearchResponse)
    (p : ContentsParams) : ContentsToolOutcome :=
  ContentsToolOutcome.ok (exaContentsExecute parseUrl call p)

/-! Concrete fixtures used to instantiate the theorems below. -/

/-- A sample backing result. -/
def sampleResult1 : TavilySearchResult :=
  { title := "T1", url := "https://one.example/a", content := "c1", score := 1 }

/-- A second sample backing result. -/
def sampleResult2 : TavilySearchResult :=
  { title := "T2", url := "https://two.example/b", content := "c2", score := 2 }

/-- A sample backing response with two results and a one-element string
images array. -/
def sampleResponse : TavilySearchResponse :=
  { query := "q", results := [sampleResult1, sampleResult2], answer := some "ans",
    images := some [TavilyImageEntry.str "http://a.png"],
    response_time := 1, request_id := "r1" }

/-- A backing response with an empty results list. -/
def emptyTavilyResponse : TavilySearchResponse :=
  { query := "q", results := [], response_time := 1, request_id := "r0" }

/-- A URL parser that recognizes exactly one URL. -/
def c1ParseUrl : String → Option UrlObj := fun u =>
  if u == "https://a.com/x" then some { hostname := "a.com", pathname := "/x" } else none

/-- A backing response whose single result has a URL different from the
requested URL and not containing its path. -/
def c1Response : TavilySearchResponse :=
  { query := "https://a.com/x",
    results := [{ title := "Other page", url := "https://a.com/other",
                  content := "snippet", score := 1 }],
    response_time := 1, request_id := "rid" }

/-- A backing call that always succeeds with c1Response. -/
def c1Call : TavilySearchRequest → Except String TavilySearchResponse :=
  fun _ => Except.ok c1Response

/-- A process environment at module load time. -/
def envAtLoadSample : String → Option String := fun _ => some "old-key"

/-- A different process environment at call time. -/
def envAtCallSample : String → Option String := fun _ => some "new-key"

/-- A network that always answers 200 with sampleResponse. -/
def okNet : OutboundRequest → HttpResponse TavilySearchResponse := fun _ =>
  { status := 200, statusText := "OK", bodyText := Except.ok "", json := sampleResponse }

/-- A network that always answers 401. -/
def net401 : OutboundRequest → HttpResponse TavilySearchResponse := fun _ =>
  { status := 401, statusText := "Unauthorized", bodyText := Except.ok "",
    json := emptyTavilyResponse }

/-- A network that always answers 429. -/
def net429 : OutboundRequest → HttpResponse TavilySearchResponse := fun _ =>
  { status := 429, statusText := "Too Many Requests", bodyText := Except.ok "",
    json := emptyTavilyResponse }

/-- A network that always answers 500 with a readable error body. -/
def net500 : OutboundRequest → HttpResponse TavilySearchResponse := fun _ =>
  { status := 500, statusText := "Internal Server Error", bodyText := Except.ok "boom",
    json := emptyTavilyResponse }

/-- A network that always answers 502 and whose response body cannot be
read. -/
def net502 : OutboundRequest → HttpResponse TavilySearchResponse := fun _ =>
  { status := 502, statusText := "Bad Gateway", bodyText := Except.error (),
    json := emptyTavilyResponse }

/-- A minimal search input. -/
def sampleSearchParams : SearchParams := { query := "hello" }

/-- A URL parser recognizing the two URLs of the independence scenario. -/
def c6ParseUrl : String → Option UrlObj := fun u =>
  if u == "https://a.com/x" then some { hostname := "a.com", pathname := "/x" }
  else if u == "https://b.com/y" then some { hostname := "b.com", pathname := "/y" }
  else none

/-- The successful backing response of the b.com lookup. -/
def c6Response : TavilySearchResponse :=
  { query := "https://b.com/y",
    results := [{ title := "B page", url := "https://b.com/y", content := "bc",
                  score := 1, raw_content := some "raw-b" }],
    response_time := 1, request_id := "r6" }

/-- A backing call that throws for the a.com URL and succeeds for every
other request. -/
def c6Call : TavilySearchRequest → Except String TavilySearchResponse := fun req =>
  if req.query == "https://a.com/x" then Except.error "network down"
  else Except.ok c6Response

/-- A search input exercising the optional payload fields. -/
def c7Params : SearchParams :=
  { query := "q7", category := some "news", includeDomains := some ["x.com"],
    excludeDomains := some [], startPublishedDate := some "2024-01-01" }

/-- A backing response whose images array holds one object entry with an
empty url field. -/
def c8Response : TavilySearchResponse :=
  { query := "q8",
    results := [{ title := "T", url := "https://e.com/p", content := "c", score := 1 }],
    images := some [TavilyImageEntry.obj "" none],
    response_time := 1, request_id := "r8" }

/-- A backing response whose single result carries an empty raw_content
string next to a non-empty content snippet. -/
def c9Response : TavilySearchResponse :=
  { query := "https://a.com/x",
    results := [{ title := "P", url := "https://a.com/x", content := "snippet",
                  score := 1, raw_content := some "" }],
    response_time := 1, request_id := "r9" }

/-- A backing call that always succeeds with c9Response. -/
def c9Call : TavilySearchRequest → Except String TavilySearchResponse :=
  fun _ => Except.ok c9Response

/-- A raw-content string of length 5000. -/
def c9Long : String := (List.replicate 5000 'a').asString

/-- A URL parser that recognizes exactly one URL, used for the
unparseable-URL scenario. -/
def c10ParseUrl : String → Option UrlObj := fun u =>
  if u == "https://b.com/y" then some { hostname := "b.com", pathname := "/y" } else none

/-- A backing call that always succeeds with an empty results list. -/
def c10Call : TavilySearchRequest → Except String TavilySearchResponse :=
  fun _ => Except.ok emptyTavilyResponse

/-- A search input carrying an invalid mode value. -/
def c3Params : SearchParams := { query := "q3", type := some "swahili" }

/-- A search input with neural mode. -/
def c3NeuralParams : SearchParams := { query := "q3", type := some "neural" }

/-! Helper lemmas. -/

theorem transformResultsAux_length (images : Option (List TavilyImageEntry))
    (l : List TavilySearchResult) (i : Nat) :
    (transformResultsAux images l i).length = l.length := by
  induction l generalizing i with
  | nil => rfl
  | cons r rest ih => simp [transformResultsAux, ih]

theorem transformResultsAux_get? (images : Option (List TavilyImageEntry))
    (l : List TavilySearchResult) (i j : Nat) :
    (transformResultsAux images l i).get? j
      = (l.get? j).map (fun r => transformResultEntry images (i + j) r) := by
  induction l generalizing i j with
  | nil => simp [transformResultsAux]
  | cons r rest ih =>
    cases j with
    | zero => simp [transformResultsAux]
    | succ j =>
      simp only [transformResultsAux, List.get?_cons_succ, ih]
      have h : i + 1 + j = i + (j + 1) := by omega
      rw [h]

theorem transformResultsAux_mem_id (images : Option (List TavilyImageEntry))
    (l : List TavilySearchResult) (i : Nat) :
    ∀ r ∈ transformResultsAux images l i, r.id = r.url := by
  induction l generalizing i with
  | nil => intro r h; simp [transformResultsAux] at h
  | cons a rest ih =>
    intro r h
    simp only [transformResultsAux, List.mem_cons] at h
    rcases h with h | h
    · subst h; rfl
    · exact ih (i + 1) r h

theorem bsr_search_depth (p : SearchParams) :
    (buildSearchRequest p).search_depth
      = some (if normalizedType p.type == "neural" then "advanced"
          else if normalizedType p.type == "keyword" then "basic" else "basic") := by
  rcases hI : p.includeDomains with _ | li <;>
    rcases hE : p.excludeDomains with _ | le <;>
    simp only [buildSearchRequest, hI, hE, apply_ite TavilySearchRequest.search_depth,
      ite_self]

theorem bsr_topic (p : SearchParams) :
    (buildSearchRequest p).topic
      = if p.category == some "news" then some "news" else none := by
  rcases hI : p.includeDomains with _ | li <;>
    rcases hE : p.excludeDomains with _ | le <;>
    simp only [buildSearchRequest, hI, hE, apply_ite TavilySearchRequest.topic, ite_self]

theorem bsr_include_domains (p : SearchParams) :
    (buildSearchRequest p).include_domains
      = match p.includeDomains with
        | some l => if l.length > 0 then some l else none
        | none => none := by
  rcases hI : p.includeDomains with _ | li <;>
    rcases hE : p.excludeDomains with _ | le <;>
    simp only [buildSearchRequest, hI, hE, apply_ite TavilySearchRequest.include_domains,
      ite_self]

theorem bsr_exclude_domains (p : SearchParams) :
    (buildSearchRequest p).exclude_domains
      = match p.excludeDomains with
        | some l => if l.length > 0 then some l else none
        | none => none := by
  rcases hI : p.includeDomains with _ | li <;>
    rcases hE : p.excludeDomains with _ | le <;>
    simp only [buildSearchRequest, hI, hE, apply_ite TavilySearchRequest.exclude_domains,
      ite_self]

theorem bsr_start_date (p : SearchParams) :
    (buildSearchRequest p).start_date
      = if strTruthy p.startPublishedDate then p.startPublishedDate else none := by
  rcases hI : p.includeDomains with _ | li <;>
    rcases hE : p.excludeDomains with _ | le <;>
    simp only [buildSearchRequest, hI, hE, apply_ite TavilySearchRequest.start_date, ite_self]

theorem bsr_end_date (p : SearchParams) :
    (buildSearchRequest p).end_date
      = if strTruthy p.endPublishedDate then p.endPublishedDate else none := by
  rcases hI : p.includeDomains with _ | li <;>
    rcases hE : p.excludeDomains with _ | le <;>
    simp only [buildSearchRequest, hI, hE, apply_ite TavilySearchRequest.end_date, ite_self]

theorem normalizedType_eq_neural_iff (t : Option String) :
    normalizedType t = "neural" ↔ t = some "neural" := by
  cases t with
  | none => decide
  | some s =>
    simp only [normalizedType, Option.some.injEq]
    by_cases h : s = "neural"
    · subst h; decide
    · cases hc : (!(s == "")) && (s == "auto" || s == "keyword" || s == "neural") with
      | false =>
        simp only [Bool.false_eq_true, if_false]
        constructor
        · intro habs; exact absurd habs (by decide)
        · intro habs; exact absurd habs h
      | true =>
        simp only [if_true]

theorem normalizedType_invalid (s : String)
    (h : (s == "auto" || s == "keyword" || s == "neural") = false) :
    normalizedType (some s) = "auto" := by
  simp [normalizedType, h]

theorem natOr_ne_zero (o : Option Nat) (d : Nat) (hd : d ≠ 0) : natOr o d ≠ 0 := by
  cases o with
  | none => simpa [natOr] using hd
  | some n =>
    simp only [natOr]
    cases hn : n == 0 with
    | true => simpa using hd
    | false => simpa using (by simpa using hn : n ≠ 0)

theorem jsSubstring_length (s : String) (n : Nat) :
    (jsSubstring s n).length = min n s.length := by
  change (s.data.take n).length = min n s.data.length
  exact List.length_take n s.data

theorem jsSubstring_ne_empty (s : String) (n : Nat) (hs : s ≠ "") (hn : n ≠ 0) :
    jsSubstring s n ≠ "" := by
  intro habs
  have hlen : (jsSubstring s n).length = 0 := by rw [habs]; rfl
  rw [jsSubstring_length] at hlen
  rcases Nat.min_eq_zero_iff.mp hlen with h | h
  · exact hn h
  · exact hs (by cases s with | mk d => cases d with | nil => rfl | cons a l => simp at h)

theorem contentsText_raw_nonempty (rc content : String) (mc : Option Nat) (h : rc ≠ "") :
    contentsText (some rc) content mc = jsSubstring rc (natOr mc 3000) := by
  simp only [contentsText]
  rw [if_neg]
  simp only [beq_iff_eq]
  exact jsSubstring_ne_empty rc (natOr mc 3000) h (natOr_ne_zero mc 3000 (by decide))

theorem filterMap_id_map {α β : Type} (f : α → Option β) (l : List α) :
    (l.map f).filterMap id = l.filterMap f := by
  induction l with
  | nil => rfl
  | cons a rest ih => cases hfa : f a <;> simp [List.filterMap_cons, hfa, ih]

theorem resolveImage_eq (images : Option (List TavilyImageEntry)) (j : Nat) :
    resolveImage images j
      = (match (images.getD []).get? j with
         | some (TavilyImageEntry.str s) => some s
         | some (TavilyImageEntry.obj u _) => if u == "" then none else some u
         | none => none) := by
  cases images with
  | none => rfl
  | some imgs =>
    cases imgs with
    | nil => simp [resolveImage]
    | cons e rest => simp [resolveImage]

/-- Claim C1, counterexample: in contents extraction the produced
LegacyResult has id equal to the requested URL but url equal to the
URL of the matching backing result, and on this input the two differ, so not
every produced LegacyResult satisfies id == url. -/
theorem c1_counterexample :
    Option.map ExaSearchResult.id (perUrlContents c1ParseUrl c1Call (some 3000) "https://a.com/x")
      = some "https://a.com/x"
    ∧ Option.map ExaSearchResult.url (perUrlContents c1ParseUrl c1Call (some 3000) "https://a.com/x")
      = some "https://a.com/other"
    ∧ ("https://a.com/x" : String) ≠ "https://a.com/other" := by
  refine ⟨by decide, by decide, by decide⟩

/-- Claim C1, amended: the search response translation preserves the
results list length and gives every result id == url; in contents
extraction every produced entry has id equal to the requested input URL,
which need not equal the entry url field. -/
theorem c1_id_url_amended :
    (∀ t : TavilySearchResponse,
      (transformTavilyToExaFormat t).results.length = t.results.length
      ∧ ∀ r ∈ (transformTavilyToExaFormat t).results, r.id = r.url)
    ∧ (∀ (parseUrl : String → Option UrlObj)
         (call : TavilySearchRequest → Except String TavilySearchResponse)
         (mc : Option Nat) (u : String) (e : ExaSearchResult),
        perUrlContents parseUrl call mc u = some e → e.id = u) := by
  constructor
  · intro t
    exact ⟨transformResultsAux_length t.images t.results 0,
           transformResultsAux_mem_id t.images t.results 0⟩
  · intro parseUrl call mc u e h
    cases hp : parseUrl u with
    | none => simp [perUrlContents, hp] at h
    | some obj =>
      cases hc : call (contentsSearchRequest u obj.hostname) with
      | error msg => simp [perUrlContents, hp, hc] at h
      | ok resp =>
        cases hr : resp.results with
        | nil => simp [perUrlContents, hp, hc, hr] at h
        | cons r0 rest =>
          simp only [perUrlContents, hp, hc, hr, Option.some.injEq] at h
          subst h
          rfl

/-- Claim C1, witness: the amended theorem instantiated on concrete
inputs. -/
theorem c1_amended_witness :
    (transformTavilyToExaFormat sampleResponse).results.length
      = sampleResponse.results.length
    ∧ perUrlContents c1ParseUrl c1Call (some 3000) "https://a.com/x"
      = some { id := "https://a.com/x", title := "Other page", url := "https://a.com/other",
               publishedDate := "", author := "", text := "snippet",
               image := none, favicon := none, score := some 1 }
    ∧ ({ id := "https://a.com/x", title := "Other page", url := "https://a.com/other",
         publishedDate := "", author := "", text := "snippet",
         image := none, favicon := none, score := some 1 } : ExaSearchResult).id
      = "https://a.com/x" := by
  refine ⟨(c1_id_url_amended.1 sampleResponse).1, by decide, ?_⟩
  exact c1_id_url_amended.2 c1ParseUrl c1Call (some 3000) "https://a.com/x" _ (by decide)

/-- Claim C3: search_depth is advanced exactly when the validated mode
is neural, basic otherwise, with invalid and absent modes normalized to
auto. -/
theorem c3_search_depth_mapping (p : SearchParams) :
    ((buildSearchRequest p).search_depth = some "advanced"
      ∨ (buildSearchRequest p).search_depth = some "basic")
    ∧ ((buildSearchRequest p).search_depth = some "advanced"
        ↔ normalizedType p.type = "neural")
    ∧ (normalizedType p.type = "neural" ↔ p.type = some "neural")
    ∧ (∀ s, p.type = some s → (s == "auto" || s == "keyword" || s == "neural") = false →
        normalizedType p.type = "auto")
    ∧ (p.type = none → normalizedType p.type = "auto") := by
  have hd := bsr_search_depth p
  refine ⟨?_, ?_, normalizedType_eq_neural_iff p.type, ?_, ?_⟩
  · rw [hd]
    cases hb : normalizedType p.type == "neural" with
    | false => right; simp [hb, ite_self]
    | true => left; simp [hb]
  · rw [hd]
    cases hb : normalizedType p.type == "neural" with
    | false =>
      simp only [hb, Bool.false_eq_true, if_false, ite_self, Option.some.injEq]
      constructor
      · intro habs; exact absurd habs (by decide)
      · intro h2; rw [h2] at hb; exact absurd hb (by decide)
    | true =>
      simp only [hb, if_true, Option.some.injEq]
      constructor
      · intro _; exact eq_of_beq hb
      · intro _; trivial
  · intro s hs hfalse; rw [hs]; exact normalizedType_invalid s hfalse
  · intro h; rw [h]; rfl

/-- Claim C3, witness: the depth mapping instantiated on a neural mode,
an invalid mode, and the normalization of the invalid mode. -/
theorem c3_mapping_witness :
    (buildSearchRequest c3NeuralParams).search_depth = some "advanced"
    ∧ normalizedType c3Params.type = "auto"
    ∧ (buildSearchRequest c3Params).search_depth = some "basic" := by
  have t1 := c3_search_depth_mapping c3NeuralParams
  have t2 := c3_search_depth_mapping c3Params
  have h2 : normalizedType c3Params.type = "auto" :=
    t2.2.2.2.1 "swahili" rfl (by decide)
  refine ⟨t1.2.1.mpr (t1.2.2.1.mpr rfl), h2, ?_⟩
  rcases t2.1 with hA | hB
  · have := t2.2.1.mp hA
    rw [h2] at this
    exact absurd this (by decide)
  · exact hB

/-- Claim C2, counterexample: the API key is captured once at module
load (line 168); after the environment changes between calls, the next
call still sends the key read at load time, not the current one. -/
theorem c2_counterexample :
    fetchTavilyKeyUsed envAtLoadSample envAtCallSample = some "old-key"
    ∧ envAtCallSample "TAVILY_API_KEY" = some "new-key"
    ∧ fetchTavilyKeyUsed envAtLoadSample envAtCallSample
        ≠ envAtCallSample "TAVILY_API_KEY"
    ∧ List.map OutboundRequest.apiKeyHeader
        (fetchTavily okNet (fetchTavilyKeyUsed envAtLoadSample envAtCallSample) "/search"
          (buildSearchRequest sampleSearchParams)).2
      = ["old-key"] := by
  refine ⟨rfl, rfl, by decide, by decide⟩

/-- Claim C2, amended: the key used on a backing call is the one read
from the environment at module load; the environment at call time has
no effect, and the outbound request header carries the load-time key. -/
theorem c2_key_captured_at_load :
    (∀ envAtLoad envAtCall : String → Option String,
      fetchTavilyKeyUsed envAtLoad envAtCall = envAtLoad "TAVILY_API_KEY")
    ∧ (∀ envAtLoad envAtCall envAtCall2 : String → Option String,
      fetchTavilyKeyUsed envAtLoad envAtCall = fetchTavilyKeyUsed envAtLoad envAtCall2)
    ∧ (∀ (envAtLoad envAtCall : String → Option String)
         (net : OutboundRequest → HttpResponse TavilySearchResponse)
         (endpoint : String) (body : TavilySearchRequest),
        strTruthy (envAtLoad "TAVILY_API_KEY") = true →
        List.map OutboundRequest.apiKeyHeader
          (fetchTavily net (fetchTavilyKeyUsed envAtLoad envAtCall) endpoint body).2
          = [(envAtLoad "TAVILY_API_KEY").getD ""]) := by
  refine ⟨fun _ _ => rfl, fun _ _ _ => rfl, ?_⟩
  intro e1 e2 net endpoint body h
  have hk : strTruthy (fetchTavilyKeyUsed e1 e2) = true := h
  simp only [fetchTavily, hk, Bool.true_eq_false, if_false,
    apply_ite Prod.snd, ite_self]
  rfl

/-- Claim C2, witness: the amended statement instantiated on concrete
environments and network. -/
theorem c2_captured_witness :
    fetchTavilyKeyUsed envAtLoadSample envAtCallSample
      = envAtLoadSample "TAVILY_API_KEY"
    ∧ List.map OutboundRequest.apiKeyHeader
        (fetchTavily okNet (fetchTavilyKeyUsed envAtLoadSample envAtCallSample) "/search"
          (buildSearchRequest sampleSearchParams)).2
      = [(envAtLoadSample "TAVILY_API_KEY").getD ""] := by
  refine ⟨c2_key_captured_at_load.1 envAtLoadSample envAtCallSample, ?_⟩
  exact c2_key_captured_at_load.2.2 envAtLoadSample envAtCallSample okNet "/search"
    (buildSearchRequest sampleSearchParams) (by decide)

/-- Claim C4: a missing (or empty, hence falsy) API key yields the
configuration error with zero outbound requests; 401 and 429 map to
their distinct fixed messages; any other non-success status yields the
error carrying status code, status text and the body text when the body
read succeeds, and the same error without body text when the body read
fails. -/
theorem c4_client_error_taxonomy {α : Type} (net : OutboundRequest → HttpResponse α)
    (apiKey : Option String) (endpoint : String) (body : TavilySearchRequest) :
    (strTruthy apiKey = false →
      fetchTavily net apiKey endpoint body
        = (Except.error "TAVILY_API_KEY is not configured", []))
    ∧ ("Invalid Tavily API key" ≠ "Tavily API usage limit exceeded")
    ∧ (∀ resp : HttpResponse α,
        strTruthy apiKey = true →
        net (outboundRequest (apiKey.getD "") endpoint body) = resp →
        ((resp.status = 401 →
            (fetchTavily net apiKey endpoint body).1
              = Except.error "Invalid Tavily API key")
         ∧ (resp.status = 429 →
            (fetchTavily net apiKey endpoint body).1
              = Except.error "Tavily API usage limit exceeded")
         ∧ (resp.status ≠ 401 → resp.status ≠ 429 → resp.ok = false →
            (∀ t, resp.bodyText = Except.ok t →
              (fetchTavily net apiKey endpoint body).1
                = Except.error ("Tavily API error: " ++ Nat.repr resp.status ++ " "
                    ++ resp.statusText ++ (if t == "" then "" else " - " ++ t)))
            ∧ (resp.bodyText = Except.error () →
              (fetchTavily net apiKey endpoint body).1
                = Except.error ("Tavily API error: " ++ Nat.repr resp.status ++ " "
                    ++ resp.statusText))))) := by
  refine ⟨?_, by decide, ?_⟩
  · intro h
    simp [fetchTavily, h]
  · intro resp hk hnet
    refine ⟨?_, ?_, ?_⟩
    · intro h401
      simp only [fetchTavily, hk, Bool.true_eq_false, if_false, hnet, h401]
      simp
    · intro h429
      simp only [fetchTavily, hk, Bool.true_eq_false, if_false, hnet, h429]
      simp
    · intro hne401 hne429 hnok
      constructor
      · intro t hbody
        simp only [fetchTavily, hk, Bool.true_eq_false, if_false, hnet, hbody, hnok,
          beq_iff_eq, hne401, hne429]
        simp [hne401, hne429]
      · intro hbody
        simp only [fetchTavily, hk, Bool.true_eq_false, if_false, hnet, hbody, hnok,
          beq_iff_eq, hne401, hne429]
        simp [hne401, hne429, String.append_empty]

/-- Claim C4, witness: the taxonomy instantiated on concrete networks
answering 401, 429, 500 with readable body, and 502 with an unreadable
body, plus the missing-key case with its empty request list. -/
theorem c4_taxonomy_witness :
    fetchTavily net401 none "/search" (buildSearchRequest sampleSearchParams)
      = (Except.error "TAVILY_API_KEY is not configured", [])
    ∧ (fetchTavily net401 (some "k") "/search" (buildSearchRequest sampleSearchParams)).1
      = Except.error "Invalid Tavily API key"
    ∧ (fetchTavily net429 (some "k") "/search" (buildSearchRequest sampleSearchParams)).1
      = Except.error "Tavily API usage limit exceeded"
    ∧ (fetchTavily net500 (some "k") "/search" (buildSearchRequest sampleSearchParams)).1
      = Except.error "Tavily API error: 500 Internal Server Error - boom"
    ∧ (fetchTavily net502 (some "k") "/search" (buildSearchRequest sampleSearchParams)).1
      = Except.error "Tavily API error: 502 Bad Gateway" := by
  refine ⟨(c4_client_error_taxonomy net401 none "/search"
      (buildSearchRequest sampleSearchParams)).1 (by decide), ?_, ?_, ?_, ?_⟩
  · exact ((c4_client_error_taxonomy net401 (some "k") "/search"
      (buildSearchRequest sampleSearchParams)).2.2 _ (by decide) rfl).1 rfl
  · exact ((c4_client_error_taxonomy net429 (some "k") "/search"
      (buildSearchRequest sampleSearchParams)).2.2 _ (by decide) rfl).2.1 rfl
  · exact ((((c4_client_error_taxonomy net500 (some "k") "/search"
      (buildSearchRequest sampleSearchParams)).2.2 _ (by decide) rfl).2.2
        (by decide) (by decide) rfl).1 "boom" rfl).trans (by decide)
  · exact ((((c4_client_error_taxonomy net502 (some "k") "/search"
      (buildSearchRequest sampleSearchParams)).2.2 _ (by decide) rfl).2.2
        (by decide) (by decide) rfl).2 rfl).trans (by decide)

/-- Claim C5: the interactive search entry point is total; on any
failure it returns exactly the payload with isError true, the failure
message, and the fixed search solution string, and on success it
returns the translated response with the fixed guide string. -/
theorem c5_interactive_search_shape (net : OutboundRequest → HttpResponse TavilySearchResponse)
    (apiKey : Option String) (p : SearchParams) :
    (∀ e, (fetchTavily net apiKey "/search" (buildSearchRequest p)).1 = Except.error e →
      exaSearchToolRun net apiKey p
        = SearchToolOutcome.fail { isError := true, error := e, solution := searchErrorSolution })
    ∧ (∀ resp, (fetchTavily net apiKey "/search" (buildSearchRequest p)).1 = Except.ok resp →
      exaSearchToolRun net apiKey p
        = SearchToolOutcome.ok (transformTavilyToExaFormat resp) searchGuide)
    ∧ ((∃ pl, exaSearchToolRun net apiKey p = SearchToolOutcome.fail pl
          ∧ pl.isError = true ∧ pl.solution = searchErrorSolution)
       ∨ (∃ resp g, exaSearchToolRun net apiKey p = SearchToolOutcome.ok resp g
          ∧ g = searchGuide)) := by
  refine ⟨?_, ?_, ?_⟩
  · intro e h; simp [exaSearchToolRun, h]
  · intro resp h; simp [exaSearchToolRun, h]
  · cases hF : (fetchTavily net apiKey "/search" (buildSearchRequest p)).1 with
    | error e =>
      left
      refine ⟨{ isError := true, error := e, solution := searchErrorSolution }, ?_, rfl, rfl⟩
      simp [exaSearchToolRun, hF]
    | ok resp =>
      right
      refine ⟨transformTavilyToExaFormat resp, searchGuide, ?_, rfl⟩
      simp [exaSearchToolRun, hF]

/-- Claim C5, witness: the interactive search on a rate-limited network
returns the error payload, and on a successful network returns the
translated response with the guide. -/
theorem c5_shape_witness :
    exaSearchToolRun net429 (some "k") sampleSearchParams
      = SearchToolOutcome.fail
          { isError := true
            error := "Tavily API usage limit exceeded"
            solution := searchErrorSolution }
    ∧ exaSearchToolRun okNet (some "k") sampleSearchParams
      = SearchToolOutcome.ok (transformTavilyToExaFormat sampleResponse) searchGuide := by
  constructor
  · exact (c5_interactive_search_shape net429 (some "k") sampleSearchParams).1
      "Tavily API usage limit exceeded" (by decide)
  · exact (c5_interactive_search_shape okNet (some "k") sampleSearchParams).2.1
      sampleResponse (by decide)

/-- Claim C6: the contents result list is exactly the filtered map of
the independent per-URL lookups; a URL whose backing call throws, and a
URL whose backing call returns zero results, both contribute nothing;
and removing such a URL from the input leaves the other URLs results
unchanged. -/
theorem c6_contents_per_url_independence
    (parseUrl : String → Option UrlObj)
    (call : TavilySearchRequest → Except String TavilySearchResponse)
    (mc : Option Nat) :
    (∀ urls lc,
      exaContentsExecute parseUrl call { urls := urls, maxCharacters := mc, livecrawl := lc }
        = urls.filterMap (perUrlContents parseUrl call mc))
    ∧ (∀ url obj, parseUrl url = some obj →
        (∀ e, call (contentsSearchRequest url obj.hostname) = Except.error e →
          perUrlContents parseUrl call mc url = none)
        ∧ (∀ resp, call (contentsSearchRequest url obj.hostname) = Except.ok resp →
          resp.results = [] → perUrlContents parseUrl call mc url = none))
    ∧ (∀ urls1 urls2 url lc, perUrlContents parseUrl call mc url = none →
        exaContentsExecute parseUrl call
          { urls := urls1 ++ url :: urls2, maxCharacters := mc, livecrawl := lc }
          = exaContentsExecute parseUrl call
            { urls := urls1 ++ urls2, maxCharacters := mc, livecrawl := lc }) := by
  have hexec : ∀ urls lc,
      exaContentsExecute parseUrl call { urls := urls, maxCharacters := mc, livecrawl := lc }
        = urls.filterMap (perUrlContents parseUrl call mc) := by
    intro urls lc
    exact filterMap_id_map (perUrlContents parseUrl call mc) urls
  refine ⟨hexec, ?_, ?_⟩
  · intro url obj hp
    constructor
    · intro e hc; simp [perUrlContents, hp, hc]
    · intro resp hc hr; simp [perUrlContents, hp, hc, hr]
  · intro urls1 urls2 url lc h
    rw [hexec, hexec, List.filterMap_append, List.filterMap_append,
      List.filterMap_cons, h]

/-- Claim C6, witness: with the a.com lookup throwing and the b.com
lookup succeeding, the result list holds exactly the b.com entry. -/
theorem c6_independence_witness :
    perUrlContents c6ParseUrl c6Call (some 3000) "https://a.com/x" = none
    ∧ exaContentsExecute c6ParseUrl c6Call
        { urls := ["https://a.com/x", "https://b.com/y"], maxCharacters := some 3000,
          livecrawl := none }
      = ["https://a.com/x", "https://b.com/y"].filterMap (perUrlContents c6ParseUrl c6Call (some 3000))
    ∧ List.map ExaSearchResult.id (exaContentsExecute c6ParseUrl c6Call
        { urls := ["https://a.com/x", "https://b.com/y"], maxCharacters := some 3000,
          livecrawl := none })
      = ["https://b.com/y"] := by
  have h := c6_contents_per_url_independence c6ParseUrl c6Call (some 3000)
  refine ⟨?_, h.1 ["https://a.com/x", "https://b.com/y"] none, by decide⟩
  exact (h.2.1 "https://a.com/x" { hostname := "a.com", pathname := "/x" } (by decide)).1
    "network down" (by decide)

/-- Claim C7: the payload never carries a field whose input was absent:
topic is present (always with value news) exactly when the category is
news, and the domain lists and dates are present exactly when provided
and non-empty, carrying the input value. -/
theorem c7_no_absent_fields (p : SearchParams) :
    ((buildSearchRequest p).topic = none ∨ (buildSearchRequest p).topic = some "news")
    ∧ ((buildSearchRequest p).topic = some "news" ↔ p.category = some "news")
    ∧ ((buildSearchRequest p).include_domains ≠ none
        ↔ ∃ l, p.includeDomains = some l ∧ l ≠ [])
    ∧ (∀ l, p.includeDomains = some l → l ≠ [] →
        (buildSearchRequest p).include_domains = some l)
    ∧ ((buildSearchRequest p).exclude_domains ≠ none
        ↔ ∃ l, p.excludeDomains = some l ∧ l ≠ [])
    ∧ (∀ l, p.excludeDomains = some l → l ≠ [] →
        (buildSearchRequest p).exclude_domains = some l)
    ∧ ((buildSearchRequest p).start_date ≠ none
        ↔ ∃ s, p.startPublishedDate = some s ∧ s ≠ "")
    ∧ (∀ s, p.startPublishedDate = some s → s ≠ "" →
        (buildSearchRequest p).start_date = some s)
    ∧ ((buildSearchRequest p).end_date ≠ none
        ↔ ∃ s, p.endPublishedDate = some s ∧ s ≠ "")
    ∧ (∀ s, p.endPublishedDate = some s → s ≠ "" →
        (buildSearchRequest p).end_date = some s) := by
  refine ⟨?_, ?_, ?_, ?_, ?_, ?_, ?_, ?_, ?_, ?_⟩
  · rw [bsr_topic]
    cases hb : p.category == some "news" with
    | false => left; simp [hb]
    | true => right; simp [hb]
  · rw [bsr_topic]
    cases hb : p.category == some "news" with
    | false =>
      simp only [hb, Bool.false_eq_true, if_false]
      constructor
      · intro habs; exact absurd habs (by simp)
      · intro hcat; rw [hcat] at hb; simp at hb
    | true =>
      simp only [hb, if_true, Option.some.injEq]
      constructor
      · intro _; exact eq_of_beq hb
      · intro _; trivial
  · rw [bsr_include_domains]
    cases hI : p.includeDomains with
    | none => simp
    | some l =>
      cases l with
      | nil => simp
      | cons a as => simp
  · intro l hIl hlne
    rw [bsr_include_domains, hIl]
    simp [List.length_pos.mpr hlne]
  · rw [bsr_exclude_domains]
    cases hE : p.excludeDomains with
    | none => simp
    | some l =>
      cases l with
      | nil => simp
      | cons a as => simp
  · intro l hEl hlne
    rw [bsr_exclude_domains, hEl]
    simp [List.length_pos.mpr hlne]
  · rw [bsr_start_date]
    cases hS : p.startPublishedDate with
    | none => simp [strTruthy]
    | some s =>
      by_cases hs : s = ""
      · subst hs; simp [strTruthy]
      · simp [strTruthy, hs]
  · intro s hSd hne
    rw [bsr_start_date, hSd]
    simp [strTruthy, hne]
  · rw [bsr_end_date]
    cases hS : p.endPublishedDate with
    | none => simp [strTruthy]
    | some s =>
      by_cases hs : s = ""
      · subst hs; simp [strTruthy]
      · simp [strTruthy, hs]
  · intro s hEd hne
    rw [bsr_end_date, hEd]
    simp [strTruthy, hne]

/-- Claim C7, witness: the field-presence characterization instantiated
on an input with news category, one include domain, an empty exclude
list, a start date and no end date. -/
theorem c7_fields_witness :
    (buildSearchRequest c7Params).topic = some "news"
    ∧ (buildSearchRequest c7Params).include_domains = some ["x.com"]
    ∧ (buildSearchRequest c7Params).exclude_domains = none
    ∧ (buildSearchRequest c7Params).start_date = some "2024-01-01"
    ∧ (buildSearchRequest c7Params).end_date = none := by
  have h := c7_no_absent_fields c7Params
  refine ⟨h.2.1.mpr rfl,
    h.2.2.2.1 ["x.com"] rfl (by decide),
    ?_,
    h.2.2.2.2.2.2.2.1 "2024-01-01" rfl (by decide),
    ?_⟩
  · cases hcase : (buildSearchRequest c7Params).exclude_domains with
    | none => rfl
    | some v =>
      exfalso
      rcases h.2.2.2.2.1.mp (by rw [hcase]; exact fun habs => Option.noConfusion habs)
        with ⟨l, hl, hlne⟩
      rw [show c7Params.excludeDomains = some [] from rfl] at hl
      exact hlne (by injection hl with h2; exact h2.symm)
  · cases hcase : (buildSearchRequest c7Params).end_date with
    | none => rfl
    | some v =>
      exfalso
      rcases h.2.2.2.2.2.2.2.2.1.mp (by rw [hcase]; exact fun habs => Option.noConfusion habs)
        with ⟨s, hl, hlne⟩
      exact Option.noConfusion (show (none : Option String) = some s from hl)

/-- Claim C8, counterexample: an object entry of the images list with
an empty url field contributes no image in the code (the optional-chain
truthiness check rejects the empty string), while the claim says every
object entry contributes its url field. -/
theorem c8_counterexample :
    Option.map ExaSearchResult.image ((transformTavilyToExaFormat c8Response).results.get? 0)
      = some none
    ∧ specImageResolve c8Response.images 0 = some ""
    ∧ Option.map ExaSearchResult.image ((transformTavilyToExaFormat c8Response).results.get? 0)
      ≠ some (specImageResolve c8Response.images 0) := by
  refine ⟨by decide, by decide, by decide⟩

/-- Claim C8, amended: results at index i take their image from the
parallel images list at index i; a string entry is used directly, an
object entry contributes its url field only when that field is
non-empty, and every other case, including an out-of-bounds index,
leaves the image unset. -/
theorem c8_image_resolution_amended (t : TavilySearchResponse) (j : Nat) :
    Option.map ExaSearchResult.image ((transformTavilyToExaFormat t).results.get? j)
      = (if j < t.results.length then some (resolveImage t.images j) else none)
    ∧ resolveImage t.images j
      = (match (t.images.getD []).get? j with
         | some (TavilyImageEntry.str s) => some s
         | some (TavilyImageEntry.obj u _) => if u == "" then none else some u
         | none => none)
    ∧ ((t.images.getD []).length ≤ j → resolveImage t.images j = none) := by
  refine ⟨?_, resolveImage_eq t.images j, ?_⟩
  · simp only [transformTavilyToExaFormat]
    rw [transformResultsAux_get?]
    cases hr : t.results.get? j with
    | none =>
      have hlen : t.results.length ≤ j := by
        rw [List.get?_eq_getElem?] at hr
        exact List.getElem?_eq_none_iff.mp hr
      simp [Nat.not_lt.mpr hlen]
    | some r =>
      rcases List.get?_eq_some.mp hr with ⟨hlt, _⟩
      simp [hlt, transformResultEntry]
  · intro h
    rw [resolveImage_eq]
    have : (t.images.getD []).get? j = none := by
      rw [List.get?_eq_getElem?]
      exact List.getElem?_eq_none h
    rw [this]

/-- Claim C8, witness: on a backing response with a one-element string
images list and two results, result 0 gets the image and result 1 gets
none. -/
theorem c8_resolution_witness :
    Option.map ExaSearchResult.image ((transformTavilyToExaFormat sampleResponse).results.get? 0)
      = some (some "http://a.png")
    ∧ Option.map ExaSearchResult.image ((transformTavilyToExaFormat sampleResponse).results.get? 1)
      = some none
    ∧ resolveImage sampleResponse.images 1 = none := by
  have h0 := c8_image_resolution_amended sampleResponse 0
  have h1 := c8_image_resolution_amended sampleResponse 1
  exact ⟨h0.1.trans (by decide), h1.1.trans (by decide), h1.2.2 (by decide)⟩

/-- Claim C9, counterexample: a present but empty raw content string is
falsy after truncation, so the code falls back to the content snippet,
while the claim says a present raw content is always used truncated. -/
theorem c9_counterexample :
    contentsText (some "") "snippet" (some 3000) = "snippet"
    ∧ jsSubstring "" (natOr (some 3000) 3000) = ""
    ∧ ("snippet" : String) ≠ ""
    ∧ Option.map ExaSearchResult.text (perUrlContents c1ParseUrl c9Call (some 3000) "https://a.com/x")
      = some "snippet" := by
  refine ⟨by decide, by decide, by decide, by decide⟩

/-- Claim C9, amended: the output text is the raw content truncated to
the requested max characters (default 3000) whenever the raw content is
present and non-empty; an absent raw content, and equally an empty one,
yields the untruncated content snippet; truncation takes the first
maxCharacters characters, so a raw content of length 5000 with max 3000
yields its first 3000 characters. -/
theorem c9_text_truncation_amended :
    (∀ (rc content : String) (mc : Option Nat), rc ≠ "" →
      contentsText (some rc) content mc = jsSubstring rc (natOr mc 3000))
    ∧ (∀ (content : String) (mc : Option Nat), contentsText none content mc = content)
    ∧ (∀ (content : String) (mc : Option Nat), contentsText (some "") content mc = content)
    ∧ (∀ (s : String) (n : Nat), (jsSubstring s n).length = min n s.length)
    ∧ (∀ rc : String, rc.length = 5000 →
        (contentsText (some rc) "snip" (some 3000)).length = 3000
        ∧ contentsText (some rc) "snip" (some 3000) = jsSubstring rc 3000)
    ∧ (∀ (parseUrl : String → Option UrlObj)
         (call : TavilySearchRequest → Except String TavilySearchResponse)
         (mc : Option Nat) (u : String) (e : ExaSearchResult),
        perUrlContents parseUrl call mc u = some e →
        ∃ m : TavilySearchResult, e.text = contentsText m.raw_content m.content mc) := by
  refine ⟨?_, ?_, ?_, jsSubstring_length, ?_, ?_⟩
  · intro rc content mc h
    exact contentsText_raw_nonempty rc content mc h
  · intro content mc; rfl
  · intro content mc
    have hempty : jsSubstring "" (natOr mc 3000) = "" := by
      simp only [jsSubstring]
      rw [show ("".toList) = ([] : List Char) from rfl, List.take_nil]
      rfl
    simp [contentsText, hempty]
  · intro rc h
    have hne : rc ≠ "" := by
      intro habs
      rw [habs] at h
      exact absurd h (by decide)
    have heq := contentsText_raw_nonempty rc "snip" (some 3000) hne
    constructor
    · rw [heq, jsSubstring_length, h]; decide
    · exact heq
  · intro parseUrl call mc u e h
    cases hp : parseUrl u with
    | none => simp [perUrlContents, hp] at h
    | some obj =>
      cases hc : call (contentsSearchRequest u obj.hostname) with
      | error msg => simp [perUrlContents, hp, hc] at h
      | ok resp =>
        cases hr : resp.results with
        | nil => simp [perUrlContents, hp, hc, hr] at h
        | cons r0 rest =>
          simp only [perUrlContents, hp, hc, hr, Option.some.injEq] at h
          subst h
          exact ⟨(List.find? (fun r => jsIncludes r.url obj.pathname) (r0 :: rest)).getD r0, rfl⟩

/-- Claim C9, witness: the amended statement instantiated on a raw
content of length 5000 with max characters 3000, and on an absent raw
content. -/
theorem c9_truncation_witness :
    c9Long.length = 5000
    ∧ (contentsText (some c9Long) "snip" (some 3000)).length = 3000
    ∧ contentsText (some c9Long) "snip" (some 3000) = jsSubstring c9Long 3000
    ∧ contentsText none "snip" (some 3000) = "snip" := by
  have hl : c9Long.length = 5000 := by
    show (List.replicate 5000 (Char.ofNat 97)).length = 5000
    exact List.length_replicate 5000 _
  obtain ⟨h1, h2⟩ := c9_text_truncation_amended.2.2.2.2.1 c9Long hl
  exact ⟨hl, h1, h2, c9_text_truncation_amended.2.1 "snip" (some 3000)⟩

/-- Claim C10: a urls entry the URL parser rejects contributes no error
and no entry in contents extraction: it is filtered from the result
list exactly like a URL with zero backing results, in the workflow
variant and in the interactive variant alike. -/
theorem c10_unparseable_url_filtered
    (parseUrl : String → Option UrlObj)
    (call : TavilySearchRequest → Except String TavilySearchResponse)
    (mc : Option Nat) (u : String) (hu : parseUrl u = none) :
    perUrlContents parseUrl call mc u = none
    ∧ (∀ urls1 urls2 lc,
        exaContentsExecute parseUrl call
          { urls := urls1 ++ u :: urls2, maxCharacters := mc, livecrawl := lc }
          = exaContentsExecute parseUrl call
            { urls := urls1 ++ urls2, maxCharacters := mc, livecrawl := lc })
    ∧ (∀ urls lc,
        exaContentsToolRun parseUrl call { urls := urls, maxCharacters := mc, livecrawl := lc }
          = ContentsToolOutcome.ok
              (exaContentsExecute parseUrl call
                { urls := urls, maxCharacters := mc, livecrawl := lc }))
    ∧ (∀ u2 obj2 resp2, parseUrl u2 = some obj2 →
        call (contentsSearchRequest u2 obj2.hostname) = Except.ok resp2 →
        resp2.results = [] →
        perUrlContents parseUrl call mc u = perUrlContents parseUrl call mc u2) := by
  have hnone : perUrlContents parseUrl call mc u = none := by
    simp [perUrlContents, hu]
  refine ⟨hnone, ?_, ?_, ?_⟩
  · intro urls1 urls2 lc
    simp only [exaContentsExecute]
    rw [filterMap_id_map, filterMap_id_map, List.filterMap_append, List.filterMap_append,
      List.filterMap_cons, hnone]
  · intro urls lc; rfl
  · intro u2 obj2 resp2 h1 h2 h3
    rw [hnone]
    simp [perUrlContents, h1, h2, h3]

/-- Claim C10, witness: an unparseable entry is dropped, it is
indistinguishable from a URL whose lookup returns zero results, and the
interactive variant returns the same filtered list. -/
theorem c10_filtered_witness :
    perUrlContents c10ParseUrl c10Call (some 3000) "notaurl" = none
    ∧ exaContentsExecute c10ParseUrl c10Call
        { urls := ["notaurl", "https://b.com/y"], maxCharacters := some 3000, livecrawl := none }
      = exaContentsExecute c10ParseUrl c10Call
        { urls := ["https://b.com/y"], maxCharacters := some 3000, livecrawl := none }
    ∧ perUrlContents c10ParseUrl c10Call (some 3000) "notaurl"
      = perUrlContents c10ParseUrl c10Call (some 3000) "https://b.com/y"
    ∧ exaContentsToolRun c10ParseUrl c10Call
        { urls := ["notaurl", "https://b.com/y"], maxCharacters := some 3000, livecrawl := none }
      = ContentsToolOutcome.ok [] := by
  have h := c10_unparseable_url_filtered c10ParseUrl c10Call (some 3000) "notaurl" (by decide)
  refine ⟨h.1, ?_, ?_, ?_⟩
  · exact h.2.1 [] ["https://b.com/y"] none
  · exact h.2.2.2 "https://b.com/y" { hostname := "b.com", pathname := "/y" }
      emptyTavilyResponse (by decide) rfl rfl
  · rw [h.2.2.1 ["notaurl", "https://b.com/y"] none]
    exact congrArg ContentsToolOutcome.ok (by decide)

end WebSearch
